import Mathlib

/-!
Verification of the bulk catalog import engine of the graba2z repository
(`server/routes/productRoutes.js`): the Excel bulk preview, the CSV bulk
preview, the bulk save loop, the single-product create route and the
dimension-entity resolver, embedded shallowly as executable Lean functions
over a model of JavaScript values.
-/

set_option maxRecDepth 4000

namespace Graba2z

/-- Model of the JavaScript values that flow through the import routes:
strings, (integral) numbers, booleans, `undefined`, Mongo ObjectId
references, arrays of `{key, value}` specification objects and arrays of
strings.  Floating point cells are out of the claims' scope, so numbers
are integers. -/
inductive JsValue where
  | str (s : String)
  | num (n : Int)
  | bool (b : Bool)
  | undefined
  | oid (n : Nat)
  | specList (l : List (String × String))
  | strList (l : List String)
  deriving DecidableEq, Repr

/-- JavaScript truthiness: `""`, `0`, `false` and `undefined` are falsy;
every object (ObjectId, array) is truthy. -/
def truthy : JsValue → Bool
  | .str s => s ≠ ""
  | .num n => n ≠ 0
  | .bool b => b
  | .undefined => false
  | .oid _ => true
  | .specList _ => true
  | .strList _ => true

/-- JavaScript `String(v)` coercion. -/
def jsToString : JsValue → String
  | .str s => s
  | .num n => toString n
  | .bool b => if b then "true" else "false"
  | .undefined => "undefined"
  | .oid n => toString n
  | .specList l => String.intercalate "," (l.map fun _ => "[object Object]")
  | .strList l => String.intercalate "," l

/-- A JavaScript object as it appears in the routes: an association list
from key to value, first occurrence of a key authoritative. -/
abbrev Row := List (String × JsValue)

/-- Property access `row[k]`: the value stored under `k`, `undefined` when
the key is absent. -/
def getField (row : Row) (k : String) : JsValue :=
  match row.find? (fun kv => kv.1 == k) with
  | some kv => kv.2
  | none => .undefined

/-- Property assignment `obj[k] = v`: overwrite in place when the key
exists (JS objects keep the original key position), append otherwise. -/
def setKey (row : Row) (k : String) (v : JsValue) : Row :=
  if row.any (fun kv => kv.1 == k) then
    row.map (fun kv => if kv.1 == k then (k, v) else kv)
  else
    row ++ [(k, v)]

/-- Characters treated as whitespace by `String.prototype.trim`. -/
def isWs (c : Char) : Bool := c.isWhitespace

/-- JavaScript `s.trim()`: strip leading and trailing whitespace. -/
def jsTrim (s : String) : String :=
  String.mk ((s.toList.dropWhile isWs).rdropWhile isWs)

/-- `s.trim().toLowerCase()` — the normalized-name key used by every
dimension map in the routes. -/
def normKey (s : String) : String := (jsTrim s).toLower

/-- `generateSlug` (productRoutes.js line 77):
`name.trim().toLowerCase().replace(/\s+/g, "-")` — each maximal internal
whitespace run becomes a single hyphen. -/
def generateSlug (name : String) : String :=
  let t := (jsTrim name).toLower
  (t.toList.foldl
    (fun (acc : String × Bool) c =>
      if isWs c then (if acc.2 then acc else (acc.1.push '-', true))
      else (acc.1.push c, false))
    ("", false)).1

/-- The fixed Excel-column alias table `excelToBackendKey`
(productRoutes.js lines 24-55). -/
def excelToBackendKey : String → Option String
  | "name" => some "name"
  | "slug" => some "slug"
  | "SKU" => some "sku"
  | "sku" => some "sku"
  | "category" => some "category"
  | "parent_category" => some "parent_category"
  | "barcode" => some "barcode"
  | "buying_price" => some "buyingPrice"
  | "selling_price" => some "price"
  | "offer_price" => some "offerPrice"
  | "tax" => some "tax"
  | "brand" => some "brand"
  | "status" => some "stockStatus"
  | "show_stock_out" => some "showStockOut"
  | "can_purchasable" => some "canPurchase"
  | "refundable" => some "refundable"
  | "max_purchase_quantity" => some "maxPurchaseQty"
  | "low_stock_warning" => some "lowStockWarning"
  | "unit" => some "unit"
  | "weight" => some "weight"
  | "tags" => some "tags"
  | "description" => some "description"
  | "discount" => some "discount"
  | "specifications" => some "specifications"
  | "details" => some "details"
  | "short_description" => some "shortDescription"
  | "subCategory" => some "subCategory"
  | "warranty" => some "warranty"
  | "size" => some "size"
  | "volume" => some "volume"
  | _ => none

/-- One iteration of the `for (const key in row)` loop of `remapRow`
(lines 57-70): recognized columns are written into the mapped object
under the backend key, unrecognized columns with a non-blank value are
collected as `{key, value}` specification entries. -/
def remapStep (acc : Row × List (String × String)) (kv : String × JsValue) :
    Row × List (String × String) :=
  let k := jsTrim kv.1
  match excelToBackendKey k with
  | some backendKey => (setKey acc.1 backendKey kv.2, acc.2)
  | none =>
    if kv.2 == JsValue.undefined || kv.2 == JsValue.str "" then acc
    else (acc.1, acc.2 ++ [(k, jsToString kv.2)])

/-- The loop body of `remapRow`, split into mapped fields and collected
specification entries. -/
def remapAux (row : Row) : Row × List (String × String) :=
  row.foldl remapStep ([], [])

/-- `remapRow` (lines 57-75): when any specifications were collected they
are stored under the `specifications` key of the mapped row (overwriting
a recognized `specifications` column, as the JS assignment does). -/
def remapRow (row : Row) : Row :=
  let (mapped, specifications) := remapAux row
  if specifications.isEmpty then mapped
  else setKey mapped "specifications" (.specList specifications)

/-- `Object.values(row).every((v) => !v)` — the empty-row test used by all
three import paths. -/
def isEmptyRow (row : Row) : Bool :=
  row.all (fun kv => !truthy kv.2)

/-- `x || d` on JavaScript values. -/
def jsOr (v d : JsValue) : JsValue := if truthy v then v else d

/-- `v !== undefined ? Boolean(v) : d` — the boolean defaulting used by
the Excel preview and the bulk save. -/
def boolDefault (v : JsValue) (d : Bool) : Bool :=
  if v == JsValue.undefined then d else truthy v

/-- `v === "true" || v === true` — the boolean coercion used by the CSV
preview path. -/
def csvBool (v : JsValue) : Bool :=
  v == JsValue.str "true" || v == JsValue.bool true

/-- Digits at the front of a character list. -/
def leadingDigits (cs : List Char) : List Char := cs.takeWhile Char.isDigit

/-- Value of a non-empty digit list. -/
def digitsToNat (cs : List Char) : Option Nat :=
  if cs.isEmpty then none
  else some (cs.foldl (fun a c => a * 10 + (c.toNat - '0'.toNat)) 0)

/-- `Number.parseInt` / `Number.parseFloat` restricted to integral results:
coerce to string, read an optional sign and a leading digit run, `none`
for NaN. -/
def parseNum (v : JsValue) : Option Int :=
  match (jsToString v).toList with
  | '-' :: rest => (digitsToNat (leadingDigits rest)).map (fun n => -(n : Int))
  | cs => (digitsToNat (leadingDigits cs)).map Int.ofNat

/-- `Number.parseInt(v) || 0` and `Number.parseFloat(v) || 0`. -/
def parseNumOr0 (v : JsValue) : Int := (parseNum v).getD 0

/-- `allowedStockStatus` (lines 651, 898, 1024). -/
def allowedStockStatus : List String :=
  ["Available Product", "Out of Stock", "PreOrder"]

/-- `let stockStatus = row.stockStatus || "Available Product";
if (!allowedStockStatus.includes(stockStatus)) stockStatus = "Available
Product"` — identical in all three import paths.  `includes` on a string
array never matches a non-string value. -/
def canonStockStatus (v : JsValue) : String :=
  match jsOr v (.str "Available Product") with
  | .str s => if allowedStockStatus.contains s then s else "Available Product"
  | _ => "Available Product"

/-- Membership of a JavaScript value in a JS `Set` of strings
(SameValueZero: only a string can equal a string). -/
def memStr (v : JsValue) (l : List String) : Bool :=
  match v with
  | .str s => l.contains s
  | _ => false

/-- A Mongo equality condition `{field: v}` against a stored string, with
mongoose casting the query value to a string; `undefined` matches only
null/missing fields, which the catalog entries never have. -/
def mongoStrMatch (v : JsValue) (s : String) : Bool :=
  match v with
  | .undefined => false
  | w => jsToString w == s

/-- A persisted catalog product, reduced to the two fields the duplicate
checks consult: stored `name` and `slug` strings. -/
abbrev CatalogEntry := String × String

/-- `rows.map((r) => r.fld).filter(Boolean)` followed by the mongoose cast
of `$in` members to the string schema type of `name`/`slug`. -/
def collectTruthyStrings (rows : List Row) (k : String) : List String :=
  rows.filterMap (fun r =>
    let v := getField r k
    if truthy v then some (jsToString v) else none)

/-- `Product.find({$or: [{name: {$in: names}}, {slug: {$in: slugs}}]})`
followed by building the `existingNames` and `existingSlugs` sets
(lines 641-646 and 886-893). -/
def existingSets (catalog : List CatalogEntry) (rows : List Row) :
    List String × List String :=
  let names := collectTruthyStrings rows "name"
  let slugs := collectTruthyStrings rows "slug"
  let existingProducts :=
    catalog.filter (fun p => names.contains p.1 || slugs.contains p.2)
  (existingProducts.map (fun p => p.1), existingProducts.map (fun p => p.2))

/-- A rejected row as pushed onto `invalidRows`:
`{row: i + 2, reason, data: row}`. -/
structure InvalidRow where
  row : Nat
  reason : String
  data : Row
  deriving DecidableEq, Repr

/-- The per-row loop shared by both preview endpoints: each row is pushed
either onto `previewProducts` or onto `invalidRows`, in input order. -/
def previewLoop {α : Type} (f : Nat → Row → Except InvalidRow α) :
    Nat → List Row → List α × List InvalidRow
  | _, [] => ([], [])
  | i, r :: rs =>
    let rest := previewLoop f (i + 1) rs
    match f i r with
    | .ok c => (c :: rest.1, rest.2)
    | .error e => (rest.1, e :: rest.2)

/-- The JSON body of a preview response (lines 732-738 and 994-1000). -/
structure PreviewResponse (α : Type) where
  previewProducts : List α
  invalidRows : List InvalidRow
  total : Nat
  valid : Nat
  invalid : Nat

/-- The in-memory dimension maps of the Excel preview (category, brand,
subCategory, tax, unit, color, warranty, size, volume), abstracted as the
lookup functions the row loop calls `.get` on. -/
structure ExcelDimMaps where
  categoryMap : String → Option Nat
  brandMap : String → Option Nat
  subCategoryMap : String → Option Nat
  taxMap : String → Option Nat
  unitMap : String → Option Nat
  colorMap : String → Option Nat
  warrantyMap : String → Option Nat
  sizeMap : String → Option Nat
  volumeMap : String → Option Nat

/-- `row.fld ? map.get(String(row.fld).trim().toLowerCase()) : undefined`. -/
def dimLookup (m : String → Option Nat) (v : JsValue) : Option Nat :=
  if truthy v then m (normKey (jsToString v)) else none

/-- The candidate product object pushed onto `previewProducts` by the
Excel preview (lines 675-709). -/
structure ExcelCandidate where
  name : JsValue
  price : JsValue
  offerPrice : JsValue
  discount : JsValue
  oldPrice : JsValue
  image : JsValue
  galleryImages : List String
  countInStock : JsValue
  description : JsValue
  shortDescription : JsValue
  category : Option Nat
  brand : Option Nat
  sku : JsValue
  slug : JsValue
  barcode : JsValue
  stockStatus : String
  buyingPrice : JsValue
  lowStockWarning : JsValue
  maxPurchaseQty : JsValue
  weight : JsValue
  unit : Option Nat
  color : Option Nat
  tax : Option Nat
  tags : List String
  isActive : Bool
  canPurchase : Bool
  showStockOut : Bool
  refundable : Bool
  featured : Bool
  subCategory : Option Nat
  warranty : Option Nat
  size : Option Nat
  volume : Option Nat
  deriving DecidableEq, Repr

/-- The object literal of lines 675-709, field by field. -/
def buildExcelCandidate (maps : ExcelDimMaps) (row : Row) : ExcelCandidate :=
  { name := jsOr (getField row "name") (.str "")
  , price := jsOr (getField row "price") (.num 0)
  , offerPrice := jsOr (getField row "offerPrice") (.num 0)
  , discount := jsOr (getField row "discount") (.num 0)
  , oldPrice := jsOr (getField row "oldPrice") (.num 0)
  , image := jsOr (getField row "image") (.str "")
  , galleryImages :=
      if truthy (getField row "galleryImages") then
        (jsToString (getField row "galleryImages")).splitOn ","
      else []
  , countInStock := jsOr (getField row "countInStock") (.num 0)
  , description := jsOr (getField row "description") (.str "")
  , shortDescription := jsOr (getField row "shortDescription") (.str "")
  , category := dimLookup maps.categoryMap (getField row "category")
  , brand := dimLookup maps.brandMap (getField row "brand")
  , sku := jsOr (getField row "sku") (.str "")
  , slug := jsOr (getField row "slug") (.str "")
  , barcode := jsOr (getField row "barcode") (.str "")
  , stockStatus := canonStockStatus (getField row "stockStatus")
  , buyingPrice := jsOr (getField row "buyingPrice") (.num 0)
  , lowStockWarning := jsOr (getField row "lowStockWarning") (.num 5)
  , maxPurchaseQty := jsOr (getField row "maxPurchaseQty") (.num 10)
  , weight := jsOr (getField row "weight") (.num 0)
  , unit := dimLookup maps.unitMap (getField row "unit")
  , color := dimLookup maps.colorMap (getField row "color")
  , tax := dimLookup maps.taxMap (getField row "tax")
  , tags :=
      if truthy (getField row "tags") then
        (jsToString (getField row "tags")).splitOn ","
      else []
  , isActive := boolDefault (getField row "isActive") true
  , canPurchase := boolDefault (getField row "canPurchase") true
  , showStockOut := boolDefault (getField row "showStockOut") true
  , refundable := boolDefault (getField row "refundable") true
  , featured := boolDefault (getField row "featured") false
  , subCategory := dimLookup maps.subCategoryMap (getField row "subCategory")
  , warranty := dimLookup maps.warrantyMap (getField row "warranty")
  , size := dimLookup maps.sizeMap (getField row "size")
  , volume := dimLookup maps.volumeMap (getField row "volume")
  }

/-- One iteration of the Excel preview row loop (lines 652-710): empty-row
check, then duplicate check against the persisted catalog, otherwise the
candidate is built.  The Excel path has no required-field check. -/
def excelClassifyRow (maps : ExcelDimMaps)
    (existingNames existingSlugs : List String) (i : Nat) (row : Row) :
    Except InvalidRow ExcelCandidate :=
  if isEmptyRow row then .error ⟨i + 2, "Empty row", row⟩
  else if (truthy (getField row "name") && memStr (getField row "name") existingNames)
      || (truthy (getField row "slug") && memStr (getField row "slug") existingSlugs) then
    .error ⟨i + 2, "Duplicate product name or slug", row⟩
  else .ok (buildExcelCandidate maps row)

/-- The Excel bulk preview (route `POST /bulk-preview`, lines 490-747),
from the parsed sheet rows to the response body; dimension maps are the
environment produced by the resolver phase. -/
def bulkPreviewExcel (maps : ExcelDimMaps) (catalog : List CatalogEntry)
    (rows : List Row) : PreviewResponse ExcelCandidate :=
  let mappedRows := rows.map remapRow
  let ex := existingSets catalog rows
  let r := previewLoop (excelClassifyRow maps ex.1 ex.2) 0 mappedRows
  { previewProducts := r.1
  , invalidRows := r.2
  , total := rows.length
  , valid := r.1.length
  , invalid := r.2.length }

/-- The in-memory dimension maps of the CSV preview. -/
structure CsvDimMaps where
  parentCategoryMap : String → Option Nat
  subCategoryMap : String → Option Nat
  brandMap : String → Option Nat
  taxMap : String → Option Nat
  unitMap : String → Option Nat

/-- The candidate product object built by the CSV preview
(lines 930-963). -/
structure CsvCandidate where
  name : JsValue
  slug : JsValue
  sku : JsValue
  barcode : JsValue
  parentCategory : Option Nat
  category : Option Nat
  brand : Option Nat
  buyingPrice : Int
  price : Int
  offerPrice : Int
  discount : Int
  tax : Option Nat
  stockStatus : String
  showStockOut : Bool
  canPurchase : Bool
  refundable : Bool
  maxPurchaseQty : Int
  lowStockWarning : Int
  unit : Option Nat
  weight : Int
  tags : List String
  description : JsValue
  shortDescription : JsValue
  specifications : List (String × JsValue)
  details : JsValue
  countInStock : Int
  isActive : Bool
  featured : Bool
  deriving DecidableEq, Repr

/-- The object literal of lines 930-963, field by field, as it evaluates
on the rows where the slug expression of line 932 does not throw (slug
truthy, or `row.name || ""` a string — then `generateSlug` receives that
string, which coincides with its coercion).  The throwing path is carried
by `buildCsvCandidateChecked` below. -/
def buildCsvCandidate (maps : CsvDimMaps) (row : Row) : CsvCandidate :=
  { name := jsOr (getField row "name") (.str "")
  , slug := jsOr (getField row "slug")
      (.str (generateSlug (jsToString (jsOr (getField row "name") (.str "")))))
  , sku := jsOr (getField row "sku") (.str "")
  , barcode := jsOr (getField row "barcode") (.str "")
  , parentCategory :=
      maps.parentCategoryMap (normKey (jsToString (getField row "parent_category")))
  , category := dimLookup maps.subCategoryMap (getField row "category")
  , brand := dimLookup maps.brandMap (getField row "brand")
  , buyingPrice := parseNumOr0 (getField row "buyingPrice")
  , price := parseNumOr0 (getField row "price")
  , offerPrice := parseNumOr0 (getField row "offerPrice")
  , discount := parseNumOr0 (getField row "discount")
  , tax := dimLookup maps.taxMap (getField row "tax")
  , stockStatus := canonStockStatus (getField row "stockStatus")
  , showStockOut := csvBool (getField row "showStockOut")
  , canPurchase := csvBool (getField row "canPurchase")
  , refundable := csvBool (getField row "refundable")
  , maxPurchaseQty :=
      if parseNumOr0 (getField row "maxPurchaseQty") == 0 then 10
      else parseNumOr0 (getField row "maxPurchaseQty")
  , lowStockWarning :=
      if parseNumOr0 (getField row "lowStockWarning") == 0 then 5
      else parseNumOr0 (getField row "lowStockWarning")
  , unit := dimLookup maps.unitMap (getField row "unit")
  , weight := parseNumOr0 (getField row "weight")
  , tags :=
      if truthy (getField row "tags") then
        ((jsToString (getField row "tags")).splitOn ",").map jsTrim
      else []
  , description := jsOr (getField row "description") (.str "")
  , shortDescription := jsOr (getField row "shortDescription") (.str "")
  , specifications :=
      if truthy (getField row "specifications") then
        [("Specifications", getField row "specifications")]
      else []
  , details := jsOr (getField row "details") (.str "")
  , countInStock := parseNumOr0 (getField row "countInStock")
  , isActive := true
  , featured := false
  }

/-- One iteration of the CSV preview row loop (lines 900-966): empty-row
check, then required fields (`name`, `parent_category`), then duplicate
check, otherwise the candidate is built. -/
def csvClassifyRow (maps : CsvDimMaps)
    (existingNames existingSlugs : List String) (i : Nat) (row : Row) :
    Except InvalidRow CsvCandidate :=
  if isEmptyRow row then .error ⟨i + 2, "Empty row", row⟩
  else if !truthy (getField row "name") || !truthy (getField row "parent_category") then
    .error ⟨i + 2, "Missing required fields (name, parent_category)", row⟩
  else if (truthy (getField row "name") && memStr (getField row "name") existingNames)
      || (truthy (getField row "slug") && memStr (getField row "slug") existingSlugs) then
    .error ⟨i + 2, "Duplicate product name or slug", row⟩
  else .ok (buildCsvCandidate maps row)

/-- The CSV bulk preview (route `POST /bulk-preview-csv`,
lines 752-1006), from `csvData` to the response body, restricted to runs
on which no row throws; `bulkPreviewCsvChecked` below carries the
batch-fatal error path. -/
def bulkPreviewCsv (maps : CsvDimMaps) (catalog : List CatalogEntry)
    (csvData : List Row) : PreviewResponse CsvCandidate :=
  let ex := existingSets catalog csvData
  let r := previewLoop (csvClassifyRow maps ex.1 ex.2) 0 csvData
  { previewProducts := r.1
  , invalidRows := r.2
  , total := csvData.length
  , valid := r.1.length
  , invalid := r.2.length }

/-- `generateSlug(v)` applied to a raw JavaScript value: the source
function immediately calls `v.trim()`, which succeeds only on strings
and throws a TypeError on every other value. -/
def generateSlugJs : JsValue → Except String String
  | .str s => .ok (generateSlug s)
  | _ => .error "TypeError: name.trim is not a function"

/-- The slug expression of line 932,
`row.slug || generateSlug(row.name || "")`, with its error path: when
`row.slug` is falsy and `row.name || ""` is a truthy non-string,
`generateSlug` throws. -/
def csvSlug (row : Row) : Except String JsValue :=
  if truthy (getField row "slug") then .ok (getField row "slug")
  else
    match generateSlugJs (jsOr (getField row "name") (.str "")) with
    | .ok s => .ok (.str s)
    | .error e => .error e

/-- The CSV candidate build including the TypeError path of the slug
field; when line 932 does not throw, the object literal evaluates to
exactly `buildCsvCandidate`. -/
def buildCsvCandidateChecked (maps : CsvDimMaps) (row : Row) :
    Except String CsvCandidate :=
  match csvSlug row with
  | .error e => .error e
  | .ok _ => .ok (buildCsvCandidate maps row)

/-- One iteration of the CSV preview row loop (lines 900-966) with its
batch-fatal error path: the outer error is a thrown TypeError, which the
route-level catch (line 1001) turns into a 500 with no report; the inner
`Except` is the per-row outcome. -/
def csvClassifyRowChecked (maps : CsvDimMaps)
    (existingNames existingSlugs : List String) (i : Nat) (row : Row) :
    Except String (Except InvalidRow CsvCandidate) :=
  if isEmptyRow row then .ok (.error ⟨i + 2, "Empty row", row⟩)
  else if !truthy (getField row "name") || !truthy (getField row "parent_category") then
    .ok (.error ⟨i + 2, "Missing required fields (name, parent_category)", row⟩)
  else if (truthy (getField row "name") && memStr (getField row "name") existingNames)
      || (truthy (getField row "slug") && memStr (getField row "slug") existingSlugs) then
    .ok (.error ⟨i + 2, "Duplicate product name or slug", row⟩)
  else
    match buildCsvCandidateChecked maps row with
    | .ok c => .ok (.ok c)
    | .error e => .error e

/-- The preview row loop with exception propagation: a thrown error at
any row aborts the whole run (the remaining rows are not processed and no
lists are produced). -/
def previewLoopChecked {α : Type}
    (f : Nat → Row → Except String (Except InvalidRow α)) :
    Nat → List Row → Except String (List α × List InvalidRow)
  | _, [] => .ok ([], [])
  | i, r :: rs =>
    match f i r with
    | .error e => .error e
    | .ok out =>
      match previewLoopChecked f (i + 1) rs with
      | .error e => .error e
      | .ok rest =>
        .ok (match out with
             | .ok c => (c :: rest.1, rest.2)
             | .error inv => (rest.1, inv :: rest.2))

/-- The CSV bulk preview including the batch-fatal error path: `.ok` is
the JSON report of lines 994-1000, `.error` is the 500 response of
line 1003, which carries no report. -/
def bulkPreviewCsvChecked (maps : CsvDimMaps) (catalog : List CatalogEntry)
    (csvData : List Row) : Except String (PreviewResponse CsvCandidate) :=
  let ex := existingSets catalog csvData
  match previewLoopChecked (csvClassifyRowChecked maps ex.1 ex.2) 0 csvData with
  | .error e => .error e
  | .ok r =>
    .ok { previewProducts := r.1
        , invalidRows := r.2
        , total := csvData.length
        , valid := r.1.length
        , invalid := r.2.length }

/-- The document constructed by `new Product({...})` in the bulk save
(lines 1057-1087).  Dimension references are passed through from the
request body unmodified. -/
structure ProductDoc where
  name : JsValue
  slug : JsValue
  sku : JsValue
  barcode : JsValue
  parentCategory : JsValue
  category : JsValue
  subCategory : JsValue
  brand : JsValue
  buyingPrice : JsValue
  price : JsValue
  offerPrice : JsValue
  discount : JsValue
  tax : JsValue
  stockStatus : String
  showStockOut : Bool
  canPurchase : Bool
  refundable : Bool
  maxPurchaseQty : JsValue
  lowStockWarning : JsValue
  unit : JsValue
  weight : JsValue
  tags : JsValue
  description : JsValue
  shortDescription : JsValue
  specifications : JsValue
  countInStock : JsValue
  isActive : Bool
  featured : Bool
  createdBy : Nat
  deriving DecidableEq, Repr

/-- The object literal of lines 1057-1087, field by field.  Note
`category` and `subCategory` are both set from `prod.category`. -/
def buildSaveDoc (user : Nat) (prod : Row) : ProductDoc :=
  { name := jsOr (getField prod "name") (.str "")
  , slug := jsOr (getField prod "slug")
      (.str (generateSlug (jsToString (jsOr (getField prod "name") (.str "")))))
  , sku := jsOr (getField prod "sku") (.str "")
  , barcode := jsOr (getField prod "barcode") (.str "")
  , parentCategory := getField prod "parentCategory"
  , category := getField prod "category"
  , subCategory := getField prod "category"
  , brand := getField prod "brand"
  , buyingPrice := jsOr (getField prod "buyingPrice") (.num 0)
  , price := jsOr (getField prod "price") (.num 0)
  , offerPrice := jsOr (getField prod "offerPrice") (.num 0)
  , discount := jsOr (getField prod "discount") (.num 0)
  , tax := getField prod "tax"
  , stockStatus := canonStockStatus (getField prod "stockStatus")
  , showStockOut := boolDefault (getField prod "showStockOut") true
  , canPurchase := boolDefault (getField prod "canPurchase") true
  , refundable := boolDefault (getField prod "refundable") true
  , maxPurchaseQty := jsOr (getField prod "maxPurchaseQty") (.num 10)
  , lowStockWarning := jsOr (getField prod "lowStockWarning") (.num 5)
  , unit := getField prod "unit"
  , weight := jsOr (getField prod "weight") (.num 0)
  , tags := jsOr (getField prod "tags") (.strList [])
  , description := jsOr (getField prod "description") (.str "")
  , shortDescription := jsOr (getField prod "shortDescription") (.str "")
  , specifications := jsOr (getField prod "specifications") (.specList [])
  , countInStock := jsOr (getField prod "countInStock") (.num 0)
  , isActive := boolDefault (getField prod "isActive") true
  , featured := boolDefault (getField prod "featured") false
  , createdBy := user
  }

/-- `Product.findOne({$or: [{name: prod.name}, {slug: prod.slug}]})`
restricted to its boolean outcome (line 1036). -/
def saveDup (catalog : List CatalogEntry) (prod : Row) : Bool :=
  catalog.any (fun e =>
    mongoStrMatch (getField prod "name") e.1 ||
    mongoStrMatch (getField prod "slug") e.2)

/-- The validation sequence of one bulk-save iteration (lines 1028-1087):
empty row, then duplicate against the live catalog, then required fields,
then the document is built. -/
def saveClassify (catalog : List CatalogEntry) (user : Nat) (prod : Row) :
    Except String ProductDoc :=
  if isEmptyRow prod then .error "Empty row"
  else if saveDup catalog prod then .error "Duplicate product name or slug"
  else if !truthy (getField prod "name") || !truthy (getField prod "parentCategory") then
    .error "Missing required fields"
  else .ok (buildSaveDoc user prod)

/-- One entry of the bulk-save `results` array:
`{index, status, reason?, product}`. -/
inductive SaveOutcome where
  | success (index : Nat) (product : ProductDoc)
  | failed (index : Nat) (reason : String) (product : Row)
  deriving DecidableEq, Repr

/-- Whether a result entry has `status: "success"`. -/
def SaveOutcome.isOk : SaveOutcome → Bool
  | .success _ _ => true
  | .failed _ _ _ => false

/-- The bulk-save row loop (lines 1026-1096).  `persist` models
`product.save()`: `none` is success, `some msg` is a thrown error caught
by the per-row `catch`; a successful save adds the document's cast name
and slug to the live catalog consulted by later duplicate checks. -/
def bulkSaveLoop (persist : Nat → ProductDoc → Option String) (user : Nat) :
    Nat → List CatalogEntry → List Row → List SaveOutcome
  | _, _, [] => []
  | i, catalog, p :: ps =>
    match saveClassify catalog user p with
    | .error reason =>
      .failed i reason p :: bulkSaveLoop persist user (i + 1) catalog ps
    | .ok doc =>
      match persist i doc with
      | some msg =>
        .failed i msg p :: bulkSaveLoop persist user (i + 1) catalog ps
      | none =>
        .success i doc ::
          bulkSaveLoop persist user (i + 1)
            ((jsToString doc.name, jsToString doc.slug) :: catalog) ps

/-- The JSON body of the bulk-save response (lines 1124-1130). -/
structure SaveResponse where
  total : Nat
  success : Nat
  failed : Nat
  results : List SaveOutcome

/-- The bulk save (route `POST /bulk-save`, lines 1011-1132). -/
def bulkSave (persist : Nat → ProductDoc → Option String) (user : Nat)
    (catalog : List CatalogEntry) (products : List Row) : SaveResponse :=
  let results := bulkSaveLoop persist user 0 catalog products
  { total := products.length
  , success := (results.filter (fun o => o.isOk)).length
  , failed := (results.filter (fun o => !o.isOk)).length
  , results := results }

/-- The document constructed by the single-product create route
(lines 367-373).  `rest` is the `...productData` spread (the body minus
the destructured `parentCategory` and `category`); the named fields are
the explicit properties, which in JS override any same-named key of the
spread. -/
structure NewProductDoc where
  rest : Row
  parentCategory : JsValue
  category : JsValue
  subCategory : JsValue
  createdBy : Nat
  deriving DecidableEq, Repr

/-- `row` without the listed keys — object rest destructuring. -/
def removeKeys (row : Row) (ks : List String) : Row :=
  row.filter (fun kv => !ks.contains kv.1)

/-- `Model.findById(v)` against a store of known ids: a non-ObjectId value
throws a cast error, a valid id resolves to the entity when present and
to `null` otherwise. -/
def findById (store : List Nat) (v : JsValue) : Except String (Option Nat) :=
  match v with
  | .oid n => .ok (if store.contains n then some n else none)
  | _ => .error "CastError"

/-- The single-product create route `POST /api/products`
(lines 330-382): required parent category, optional subcategory
(`category`) validated against the subcategory store, slug uniqueness
check, then the document build and `save()`.  Mongoose rejects at save a
`category` value that is neither absent nor an ObjectId (cast failure),
so only such documents persist. -/
def createProduct (parentCats subCats : List Nat) (catalogSlugs : List String)
    (body : Row) (user : Nat) : Except String NewProductDoc :=
  let parentCategory := getField body "parentCategory"
  let category := getField body "category"
  let productData := removeKeys body ["parentCategory", "category"]
  match (if truthy parentCategory then
          match findById parentCats parentCategory with
          | .error e => .error e
          | .ok none => .error "Invalid parent category"
          | .ok (some _) => .ok ()
         else .error "Parent category is required" : Except String Unit) with
  | .error e => .error e
  | .ok _ =>
    match (if truthy category then
            match findById subCats category with
            | .error e => .error e
            | .ok none => .error "Invalid subcategory"
            | .ok (some _) => .ok ()
           else .ok () : Except String Unit) with
    | .error e => .error e
    | .ok _ =>
      if truthy (getField productData "slug")
          && catalogSlugs.any (fun s => mongoStrMatch (getField productData "slug") s) then
        .error "Product slug already exists"
      else if category == JsValue.undefined
          || (match category with | .oid _ => true | _ => false) then
        .ok { rest := productData
            , parentCategory := parentCategory
            , category := category
            , subCategory := jsOr category JsValue.undefined
            , createdBy := user }
      else .error "Product category cast failed"

/-- A persisted dimension entity (Category, Brand, Tax, Unit, Color,
Warranty, Size, Volume or SubCategory), reduced to id and stored name. -/
structure DimEntity where
  id : Nat
  name : String
  deriving DecidableEq, Repr

/-- Key membership in an association-list map. -/
def mapHas (m : List (String × Nat)) (k : String) : Bool :=
  m.any (fun kv => kv.1 == k)

/-- `Map.get`. -/
def mapGet (m : List (String × Nat)) (k : String) : Option Nat :=
  (m.find? (fun kv => kv.1 == k)).map (fun kv => kv.2)

/-- `Map.set`: overwrite in place, append when new. -/
def mapSet (m : List (String × Nat)) (k : String) (v : Nat) : List (String × Nat) :=
  if mapHas m k then m.map (fun kv => if kv.1 == k then (k, v) else kv)
  else m ++ [(k, v)]

/-- The unique-name collection pass (lines 527-537 / 774-780): every
truthy value of the given field, stringified and trimmed, deduplicated in
first-seen order (a JS `Set`). -/
def collectDimNames (fld : String) : List Row → List String → List String
  | [], acc => acc
  | r :: rs, acc =>
    let v := getField r fld
    collectDimNames fld rs
      (if truthy v then
        (let s := jsTrim (jsToString v)
         if acc.contains s then acc else acc ++ [s])
       else acc)

/-- Filling the in-memory map from the entities found by the batch query
(lines 550-567): keyed by the stored name, trimmed and lower-cased. -/
def dimInitMap (found : List DimEntity) : List (String × Nat) :=
  found.foldl (fun m e => mapSet m (normKey e.name) e.id) []

/-- The creation loop (lines 568-638 / 808-882): every collected name not
yet in the map is created with a fresh id and inserted under its
normalized key. -/
def dimCreateLoop : List String → List (String × Nat) → Nat → List (String × Nat) × Nat
  | [], m, fresh => (m, fresh)
  | n :: ns, m, fresh =>
    if mapHas m (normKey n) then dimCreateLoop ns m fresh
    else dimCreateLoop ns (mapSet m (normKey n) fresh) (fresh + 1)

/-- The whole resolution phase for one dimension kind: collect the names
referenced by the rows, batch-query the store case-sensitively by stored
name, fill the map, then create what is missing.  `freshBase` seeds the
ids of newly created entities. -/
def resolveDim (existing : List DimEntity) (rows : List Row) (fld : String)
    (freshBase : Nat) : List (String × Nat) :=
  let names := collectDimNames fld rows []
  let found := existing.filter (fun e => names.contains e.name)
  (dimCreateLoop names (dimInitMap found) freshBase).1

/-- The identifier a row occurrence of a dimension name resolves to in
the per-row loop: `map.get(String(v).trim().toLowerCase())`. -/
def resolvedId (m : List (String × Nat)) (v : JsValue) : Option Nat :=
  mapGet m (normKey (jsToString v))

/-- Empty dimension maps for the Excel path (a run whose batch resolved
nothing), used to instantiate theorems at concrete inputs. -/
def trivExcelMaps : ExcelDimMaps :=
  { categoryMap := fun _ => none
  , brandMap := fun _ => none
  , subCategoryMap := fun _ => none
  , taxMap := fun _ => none
  , unitMap := fun _ => none
  , colorMap := fun _ => none
  , warrantyMap := fun _ => none
  , sizeMap := fun _ => none
  , volumeMap := fun _ => none }

/-- Empty dimension maps for the CSV path. -/
def trivCsvMaps : CsvDimMaps :=
  { parentCategoryMap := fun _ => none
  , subCategoryMap := fun _ => none
  , brandMap := fun _ => none
  , taxMap := fun _ => none
  , unitMap := fun _ => none }

/-! ## General lemmas about the embedded operations -/

theorem bulkSaveLoop_cons_error {persist : Nat → ProductDoc → Option String}
    {user i : Nat} {catalog : List CatalogEntry} {p : Row} {ps : List Row}
    {reason : String} (h : saveClassify catalog user p = .error reason) :
    bulkSaveLoop persist user i catalog (p :: ps)
      = SaveOutcome.failed i reason p :: bulkSaveLoop persist user (i + 1) catalog ps := by
  simp only [bulkSaveLoop, h]

theorem bulkSaveLoop_cons_persistFail {persist : Nat → ProductDoc → Option String}
    {user i : Nat} {catalog : List CatalogEntry} {p : Row} {ps : List Row}
    {doc : ProductDoc} {msg : String}
    (h : saveClassify catalog user p = .ok doc) (hp : persist i doc = some msg) :
    bulkSaveLoop persist user i catalog (p :: ps)
      = SaveOutcome.failed i msg p :: bulkSaveLoop persist user (i + 1) catalog ps := by
  simp only [bulkSaveLoop, h, hp]

theorem bulkSaveLoop_cons_success {persist : Nat → ProductDoc → Option String}
    {user i : Nat} {catalog : List CatalogEntry} {p : Row} {ps : List Row}
    {doc : ProductDoc}
    (h : saveClassify catalog user p = .ok doc) (hp : persist i doc = none) :
    bulkSaveLoop persist user i catalog (p :: ps)
      = SaveOutcome.success i doc ::
          bulkSaveLoop persist user (i + 1)
            ((jsToString doc.name, jsToString doc.slug) :: catalog) ps := by
  simp only [bulkSaveLoop, h, hp]

theorem bulkSaveLoop_length (persist : Nat → ProductDoc → Option String) (user : Nat) :
    ∀ (i : Nat) (catalog : List CatalogEntry) (ps : List Row),
      (bulkSaveLoop persist user i catalog ps).length = ps.length
  | _, _, [] => rfl
  | i, catalog, p :: ps => by
    cases hc : saveClassify catalog user p with
    | error reason =>
      rw [bulkSaveLoop_cons_error hc]
      simp [bulkSaveLoop_length persist user (i + 1) catalog ps]
    | ok doc =>
      cases hp : persist i doc with
      | some msg =>
        rw [bulkSaveLoop_cons_persistFail hc hp]
        simp [bulkSaveLoop_length persist user (i + 1) catalog ps]
      | none =>
        rw [bulkSaveLoop_cons_success hc hp]
        simp [bulkSaveLoop_length persist user (i + 1)
          ((jsToString doc.name, jsToString doc.slug) :: catalog) ps]

theorem canonStockStatus_mem (v : JsValue) :
    allowedStockStatus.contains (canonStockStatus v) = true := by
  unfold canonStockStatus
  split
  · next s heq =>
    split
    · next h => simpa using h
    · simp [allowedStockStatus]
  · simp [allowedStockStatus]

theorem canonStockStatus_undef : canonStockStatus JsValue.undefined = "Available Product" := rfl

theorem canonStockStatus_unrecognized (s : String)
    (h : allowedStockStatus.contains s = false) :
    canonStockStatus (JsValue.str s) = "Available Product" := by
  unfold canonStockStatus jsOr
  by_cases hs : s = ""
  · simp [hs, truthy, allowedStockStatus]
  · have ht : truthy (JsValue.str s) = true := by simp [truthy, hs]
    rw [if_pos ht]
    show (if allowedStockStatus.contains s = true then s else "Available Product")
        = "Available Product"
    rw [h]
    simp

theorem excelClassifyRow_ok {maps : ExcelDimMaps} {eN eS : List String}
    {i : Nat} {row : Row} {c : ExcelCandidate}
    (h : excelClassifyRow maps eN eS i row = .ok c) :
    c = buildExcelCandidate maps row := by
  unfold excelClassifyRow at h
  split at h
  · exact absurd h (by simp)
  · split at h
    · exact absurd h (by simp)
    · injection h with h
      exact h.symm

theorem csvClassifyRow_ok {maps : CsvDimMaps} {eN eS : List String}
    {i : Nat} {row : Row} {c : CsvCandidate}
    (h : csvClassifyRow maps eN eS i row = .ok c) :
    c = buildCsvCandidate maps row := by
  unfold csvClassifyRow at h
  split at h
  · exact absurd h (by simp)
  · split at h
    · exact absurd h (by simp)
    · split at h
      · exact absurd h (by simp)
      · injection h with h
        exact h.symm

theorem saveClassify_ok {catalog : List CatalogEntry} {user : Nat}
    {prod : Row} {d : ProductDoc}
    (h : saveClassify catalog user prod = .ok d) :
    d = buildSaveDoc user prod := by
  unfold saveClassify at h
  split at h
  · exact absurd h (by simp)
  · split at h
    · exact absurd h (by simp)
    · split at h
      · exact absurd h (by simp)
      · injection h with h
        exact h.symm

theorem getField_nil (k : String) : getField [] k = JsValue.undefined := rfl

theorem getField_cons (kv : String × JsValue) (rest : Row) (k : String) :
    getField (kv :: rest) k = if kv.1 == k then kv.2 else getField rest k := by
  unfold getField
  rw [List.find?_cons]
  cases hk : (kv.1 == k) <;> simp [hk]

theorem getField_of_all_falsy {row : Row} {k : String}
    (h : row.all (fun kv => !truthy kv.2) = true) :
    truthy (getField row k) = false := by
  induction row with
  | nil => rfl
  | cons kv rest ih =>
    simp only [List.all_cons, Bool.and_eq_true, Bool.not_eq_true'] at h
    rw [getField_cons]
    by_cases hk : (kv.1 == k) = true
    · rw [if_pos hk]; exact h.1
    · rw [if_neg (by simpa using hk)]
      exact ih (by simpa using h.2)

theorem getField_append_single_ne {m : Row} {k k' : String} {v : JsValue}
    (h : k' ≠ k) : getField (m ++ [(k, v)]) k' = getField m k' := by
  induction m with
  | nil =>
    rw [List.nil_append, getField_cons]
    rw [if_neg (by simp; exact fun e => h e.symm)]
  | cons kv rest ih =>
    rw [List.cons_append, getField_cons, getField_cons]
    by_cases hk' : (kv.1 == k') = true
    · rw [if_pos hk', if_pos hk']
    · rw [if_neg (by simpa using hk'), if_neg (by simpa using hk')]
      exact ih

theorem getField_replace_ne {m : Row} {k k' : String} {v : JsValue}
    (h : k' ≠ k) :
    getField (m.map (fun kv => if kv.1 == k then (k, v) else kv)) k'
      = getField m k' := by
  induction m with
  | nil => rfl
  | cons kv rest ih =>
    rw [List.map_cons]
    by_cases hk : (kv.1 == k) = true
    · rw [if_pos hk, getField_cons, getField_cons]
      have hkk' : ¬((k : String) == k') = true := by
        simp only [beq_iff_eq]; exact fun e => h e.symm
      have hkv' : ¬(kv.1 == k') = true := by
        simp only [beq_iff_eq] at hk ⊢
        rw [hk]; exact fun e => h e.symm
      rw [if_neg hkk', if_neg hkv']
      exact ih
    · rw [if_neg hk, getField_cons, getField_cons]
      by_cases hk' : (kv.1 == k') = true
      · rw [if_pos hk', if_pos hk']
      · rw [if_neg hk', if_neg hk']
        exact ih

theorem getField_setKey_ne {m : Row} {k k' : String} {v : JsValue}
    (h : k' ≠ k) : getField (setKey m k v) k' = getField m k' := by
  unfold setKey
  split
  · exact getField_replace_ne h
  · exact getField_append_single_ne h

theorem isEmptyRow_setKey_truthy {m : Row} {k : String} {v : JsValue}
    (hv : truthy v = true) : isEmptyRow (setKey m k v) = false := by
  unfold setKey
  split
  · next hmem =>
    rw [List.any_eq_true] at hmem
    obtain ⟨kv, hkv, hk⟩ := hmem
    unfold isEmptyRow
    rw [Bool.eq_false_iff]
    intro hall
    rw [List.all_eq_true] at hall
    have hmem2 : (k, v) ∈ m.map (fun kv => if kv.1 == k then (k, v) else kv) :=
      List.mem_map.mpr ⟨kv, hkv, by simp [hk]⟩
    have := hall _ hmem2
    simp [hv] at this
  · unfold isEmptyRow
    rw [Bool.eq_false_iff]
    intro hall
    rw [List.all_eq_true] at hall
    have := hall (k, v) (by simp)
    simp [hv] at this

theorem jsTrim_idem (s : String) : jsTrim (jsTrim s) = jsTrim s := by
  unfold jsTrim
  show String.mk ((((s.toList.dropWhile isWs).rdropWhile isWs).dropWhile isWs).rdropWhile isWs)
      = String.mk ((s.toList.dropWhile isWs).rdropWhile isWs)
  congr 1
  have h1 : ((s.toList.dropWhile isWs).rdropWhile isWs).dropWhile isWs
      = (s.toList.dropWhile isWs).rdropWhile isWs := by
    obtain ⟨t, ht⟩ := List.rdropWhile_prefix isWs (s.toList.dropWhile isWs)
    cases hr : (s.toList.dropWhile isWs).rdropWhile isWs with
    | nil => simp
    | cons c cs =>
      have hd : s.toList.dropWhile isWs = c :: (cs ++ t) := by
        rw [← ht, hr]
        simp
      have hidem := List.dropWhile_idempotent isWs s.toList
      rw [hd] at hidem
      have hc : isWs c = false := by
        by_contra hcc
        rw [Bool.not_eq_false] at hcc
        rw [List.dropWhile_cons, if_pos (by simp [hcc])] at hidem
        have := congrArg List.length hidem
        have hle : ((cs ++ t).dropWhile isWs).length ≤ (cs ++ t).length :=
          (List.dropWhile_suffix isWs).sublist.length_le
        simp only [List.length_cons, List.length_append] at this hle
        omega
      rw [List.dropWhile_cons, if_neg (by simp [hc])]
  rw [h1, List.rdropWhile_idempotent]

theorem normKey_jsTrim (s : String) : normKey (jsTrim s) = normKey s := by
  unfold normKey
  rw [jsTrim_idem]

theorem mapHas_mapSet_self (m : List (String × Nat)) (k : String) (v : Nat) :
    mapHas (mapSet m k v) k = true := by
  unfold mapSet
  split
  · next h =>
    unfold mapHas at h ⊢
    rw [List.any_eq_true] at h ⊢
    obtain ⟨kv, hm, hk⟩ := h
    exact ⟨(k, v), List.mem_map.mpr ⟨kv, hm, by rw [if_pos hk]⟩, by simp⟩
  · unfold mapHas
    rw [List.any_eq_true]
    exact ⟨(k, v), by simp, by simp⟩

theorem mapHas_mapSet_mono {m : List (String × Nat)} {k' : String}
    (k : String) (v : Nat) (h : mapHas m k' = true) :
    mapHas (mapSet m k v) k' = true := by
  unfold mapSet
  split
  · unfold mapHas at h ⊢
    rw [List.any_eq_true] at h ⊢
    obtain ⟨kv, hm, hk⟩ := h
    by_cases hkk : (kv.1 == k) = true
    · refine ⟨(k, v), List.mem_map.mpr ⟨kv, hm, by rw [if_pos hkk]⟩, ?_⟩
      simp only [beq_iff_eq] at hk hkk ⊢
      rw [← hkk, hk]
    · exact ⟨kv, List.mem_map.mpr ⟨kv, hm, by rw [if_neg hkk]⟩, hk⟩
  · unfold mapHas at h ⊢
    rw [List.any_eq_true] at h ⊢
    obtain ⟨kv, hm, hk⟩ := h
    exact ⟨kv, List.mem_append_left _ hm, hk⟩

theorem dimCreateLoop_has_mono :
    ∀ (ns : List String) (m : List (String × Nat)) (fresh : Nat) (k : String),
      mapHas m k = true → mapHas (dimCreateLoop ns m fresh).1 k = true
  | [], _, _, _, h => h
  | n :: ns, m, fresh, k, h => by
    unfold dimCreateLoop
    split
    · exact dimCreateLoop_has_mono ns m fresh k h
    · exact dimCreateLoop_has_mono ns _ _ k (mapHas_mapSet_mono _ _ h)

theorem dimCreateLoop_complete :
    ∀ (ns : List String) (m : List (String × Nat)) (fresh : Nat) (n : String),
      n ∈ ns → mapHas (dimCreateLoop ns m fresh).1 (normKey n) = true
  | [], _, _, n, h => absurd h (List.not_mem_nil n)
  | n' :: ns, m, fresh, n, h => by
    unfold dimCreateLoop
    rcases List.mem_cons.mp h with rfl | h2
    · split
      · next hh => exact dimCreateLoop_has_mono ns m fresh _ hh
      · exact dimCreateLoop_has_mono ns _ _ _ (mapHas_mapSet_self _ _ _)
    · split
      · exact dimCreateLoop_complete ns m fresh n h2
      · exact dimCreateLoop_complete ns _ _ n h2

theorem collectDimNames_mono (fld : String) :
    ∀ (rows : List Row) (acc : List String) (s : String),
      s ∈ acc → s ∈ collectDimNames fld rows acc
  | [], _, _, h => h
  | r :: rs, acc, s, h => by
    unfold collectDimNames
    apply collectDimNames_mono fld rs _ s
    by_cases htv : truthy (getField r fld) = true
    · rw [if_pos htv]
      show s ∈ (if acc.contains (jsTrim (jsToString (getField r fld))) = true
          then acc else acc ++ [jsTrim (jsToString (getField r fld))])
      split
      · exact h
      · exact List.mem_append_left _ h
    · rw [if_neg htv]
      exact h

theorem collectDimNames_complete (fld : String) :
    ∀ (rows : List Row) (acc : List String) (r : Row),
      r ∈ rows → truthy (getField r fld) = true →
      jsTrim (jsToString (getField r fld)) ∈ collectDimNames fld rows acc
  | [], _, r, hm, _ => absurd hm (List.not_mem_nil r)
  | r' :: rs, acc, r, hm, ht => by
    unfold collectDimNames
    rcases List.mem_cons.mp hm with rfl | h2
    · apply collectDimNames_mono
      rw [if_pos ht]
      by_cases hc : (acc.contains (jsTrim (jsToString (getField r fld)))) = true
      · rw [if_pos hc]
        simpa using hc
      · rw [if_neg hc]
        simp
    · exact collectDimNames_complete fld rs _ r h2 ht

theorem mapGet_isSome_of_has {m : List (String × Nat)} {k : String}
    (h : mapHas m k = true) : ∃ id, mapGet m k = some id := by
  unfold mapHas at h
  unfold mapGet
  rw [List.any_eq_true] at h
  obtain ⟨kv, hm, hk⟩ := h
  have hsome : (m.find? (fun kv => kv.1 == k)).isSome := by
    rw [List.find?_isSome]
    exact ⟨kv, hm, hk⟩
  cases hf : m.find? (fun kv => kv.1 == k) with
  | none => rw [hf] at hsome; simp at hsome
  | some kv' => exact ⟨kv'.2, rfl⟩

/-! ## Claim theorems -/

/-- C6: in every import path (Excel preview, CSV preview, save) the
produced candidate's stockStatus is one of exactly "Available Product",
"Out of Stock", "PreOrder"; when the row's stockStatus is absent or an
unrecognized value the candidate's stockStatus is "Available Product". -/
theorem C6_stock_status_canonical :
    (∀ (maps : ExcelDimMaps) (eN eS : List String) (i : Nat) (row : Row)
        (c : ExcelCandidate), excelClassifyRow maps eN eS i row = .ok c →
        allowedStockStatus.contains c.stockStatus = true
        ∧ (getField row "stockStatus" = JsValue.undefined →
            c.stockStatus = "Available Product")
        ∧ (∀ s, getField row "stockStatus" = JsValue.str s →
            allowedStockStatus.contains s = false →
            c.stockStatus = "Available Product"))
    ∧ (∀ (maps : CsvDimMaps) (eN eS : List String) (i : Nat) (row : Row)
        (c : CsvCandidate), csvClassifyRow maps eN eS i row = .ok c →
        allowedStockStatus.contains c.stockStatus = true
        ∧ (getField row "stockStatus" = JsValue.undefined →
            c.stockStatus = "Available Product")
        ∧ (∀ s, getField row "stockStatus" = JsValue.str s →
            allowedStockStatus.contains s = false →
            c.stockStatus = "Available Product"))
    ∧ (∀ (catalog : List CatalogEntry) (user : Nat) (prod : Row)
        (d : ProductDoc), saveClassify catalog user prod = .ok d →
        allowedStockStatus.contains d.stockStatus = true
        ∧ (getField prod "stockStatus" = JsValue.undefined →
            d.stockStatus = "Available Product")
        ∧ (∀ s, getField prod "stockStatus" = JsValue.str s →
            allowedStockStatus.contains s = false →
            d.stockStatus = "Available Product")) := by
  refine ⟨?_, ?_, ?_⟩
  · intro maps eN eS i row c hok
    rw [excelClassifyRow_ok hok]
    have hcs : (buildExcelCandidate maps row).stockStatus
        = canonStockStatus (getField row "stockStatus") := rfl
    refine ⟨by rw [hcs]; exact canonStockStatus_mem _, ?_, ?_⟩
    · intro h; rw [hcs, h]; exact canonStockStatus_undef
    · intro s hs hcont; rw [hcs, hs]; exact canonStockStatus_unrecognized s hcont
  · intro maps eN eS i row c hok
    rw [csvClassifyRow_ok hok]
    have hcs : (buildCsvCandidate maps row).stockStatus
        = canonStockStatus (getField row "stockStatus") := rfl
    refine ⟨by rw [hcs]; exact canonStockStatus_mem _, ?_, ?_⟩
    · intro h; rw [hcs, h]; exact canonStockStatus_undef
    · intro s hs hcont; rw [hcs, hs]; exact canonStockStatus_unrecognized s hcont
  · intro catalog user prod d hok
    rw [saveClassify_ok hok]
    have hcs : (buildSaveDoc user prod).stockStatus
        = canonStockStatus (getField prod "stockStatus") := rfl
    refine ⟨by rw [hcs]; exact canonStockStatus_mem _, ?_, ?_⟩
    · intro h; rw [hcs, h]; exact canonStockStatus_undef
    · intro s hs hcont; rw [hcs, hs]; exact canonStockStatus_unrecognized s hcont

/-- Witness for C6 at a concrete accepted row carrying an unrecognized
stock status. -/
theorem C6_stock_status_canonical_witness :
    allowedStockStatus.contains
      (buildExcelCandidate trivExcelMaps
        [("name", JsValue.str "A"), ("status", JsValue.str "Backordered")]).stockStatus
      = true :=
  (C6_stock_status_canonical.1 trivExcelMaps [] [] 0
    [("name", JsValue.str "A"), ("status", JsValue.str "Backordered")] _ rfl).1

/-- C7: after the batch resolution phase the dimension map contains an
entry for every distinct normalized (trimmed, lower-cased) name occurring
in the input rows, and any two occurrences with the same normalized form
resolve to the same identifier within one run. -/
theorem C7_dimension_resolution_complete :
    (∀ (existing : List DimEntity) (rows : List Row) (fld : String)
        (base : Nat) (r : Row), r ∈ rows → truthy (getField r fld) = true →
        ∃ id, resolvedId (resolveDim existing rows fld base) (getField r fld)
          = some id)
    ∧ (∀ (existing : List DimEntity) (rows : List Row) (fld : String)
        (base : Nat) (v1 v2 : JsValue),
        normKey (jsToString v1) = normKey (jsToString v2) →
        resolvedId (resolveDim existing rows fld base) v1
          = resolvedId (resolveDim existing rows fld base) v2) := by
  constructor
  · intro existing rows fld base r hr ht
    have hmem := collectDimNames_complete fld rows [] r hr ht
    have hhas := dimCreateLoop_complete (collectDimNames fld rows [])
      (dimInitMap ((existing.filter (fun e =>
        (collectDimNames fld rows []).contains e.name)))) base _ hmem
    rw [normKey_jsTrim] at hhas
    exact mapGet_isSome_of_has hhas
  · intro existing rows fld base v1 v2 h
    unfold resolvedId
    rw [h]

/-- Witness for C7: a row referencing an existing category resolves. -/
theorem C7_dimension_resolution_complete_witness :
    ∃ id, resolvedId
      (resolveDim [DimEntity.mk 11 "Gadgets"]
        [[("category", JsValue.str "Gadgets")]] "category" 100)
      (getField [("category", JsValue.str "Gadgets")] "category") = some id :=
  C7_dimension_resolution_complete.1 [DimEntity.mk 11 "Gadgets"]
    [[("category", JsValue.str "Gadgets")]] "category" 100
    [("category", JsValue.str "Gadgets")] (by simp) rfl

/-- C9: in save mode a persistence failure of one row is recorded as a
failed outcome carrying the underlying error message and does not prevent
later rows from being processed; the report has one result per input
candidate. -/
theorem C9_save_failure_isolation :
    (∀ (persist : Nat → ProductDoc → Option String) (user i : Nat)
        (catalog : List CatalogEntry) (ps : List Row),
        (bulkSaveLoop persist user i catalog ps).length = ps.length)
    ∧ (∀ (persist : Nat → ProductDoc → Option String) (user i : Nat)
        (catalog : List CatalogEntry) (p : Row) (ps : List Row)
        (doc : ProductDoc) (msg : String),
        saveClassify catalog user p = .ok doc → persist i doc = some msg →
        bulkSaveLoop persist user i catalog (p :: ps)
          = SaveOutcome.failed i msg p
              :: bulkSaveLoop persist user (i + 1) catalog ps) :=
  ⟨fun persist user i catalog ps => bulkSaveLoop_length persist user i catalog ps,
   fun _ _ _ _ _ _ _ _ h hp => bulkSaveLoop_cons_persistFail h hp⟩

/-- Witness for C9: a thrown save error becomes a failed result with the
thrown message and the loop continues with the remaining (empty) list. -/
theorem C9_save_failure_isolation_witness :
    bulkSaveLoop (fun _ _ => some "boom") 0 0 []
      [[("name", JsValue.str "A"), ("parentCategory", JsValue.oid 1)]]
      = [SaveOutcome.failed 0 "boom"
          [("name", JsValue.str "A"), ("parentCategory", JsValue.oid 1)]] :=
  C9_save_failure_isolation.2 (fun _ _ => some "boom") 0 0 []
    [("name", JsValue.str "A"), ("parentCategory", JsValue.oid 1)] []
    (buildSaveDoc 0 [("name", JsValue.str "A"), ("parentCategory", JsValue.oid 1)])
    "boom" rfl rfl

/-- C10: every product document persisted by the bulk save and by the
single-product create route has its subCategory field equal to its
category field. -/
theorem C10_subcategory_mirror :
    (∀ (user : Nat) (prod : Row),
        (buildSaveDoc user prod).subCategory = (buildSaveDoc user prod).category)
    ∧ (∀ (parentCats subCats : List Nat) (catalogSlugs : List String)
        (body : Row) (user : Nat) (doc : NewProductDoc),
        createProduct parentCats subCats catalogSlugs body user = .ok doc →
        doc.subCategory = doc.category) := by
  constructor
  · intro user prod
    rfl
  · intro parentCats subCats catalogSlugs body user doc h
    simp only [createProduct] at h
    split at h
    · exact absurd h (by simp)
    · split at h
      · exact absurd h (by simp)
      · split at h
        · exact absurd h (by simp)
        · split at h
          · next hcast =>
            injection h with h
            subst h
            show jsOr (getField body "category") JsValue.undefined
                = getField body "category"
            rw [Bool.or_eq_true] at hcast
            rcases hcast with h1 | h2
            · have hu : getField body "category" = JsValue.undefined := by
                simpa using h1
              rw [hu]
              rfl
            · cases hcv : getField body "category" <;> rw [hcv] at h2 <;>
                simp at h2
              rfl
          · exact absurd h (by simp)

/-- Witness for C10 at a concrete create-route call. -/
theorem C10_subcategory_mirror_witness :
    (NewProductDoc.mk [] (JsValue.oid 1) JsValue.undefined JsValue.undefined 7).subCategory
      = (NewProductDoc.mk [] (JsValue.oid 1) JsValue.undefined JsValue.undefined 7).category :=
  C10_subcategory_mirror.2 [1] [] [] [("parentCategory", JsValue.oid 1)] 7 _ rfl

/-- Counterexample to C2: in the Excel preview path a row with no name
but a non-blank selling price is not rejected at all — it becomes an
accepted candidate with empty name.  The claim demands a
missing-required-field rejection in every import path. -/
theorem C2_excel_nameless_row_accepted :
    (bulkPreviewExcel trivExcelMaps [] [[("selling_price", JsValue.num 5)]]).invalidRows
      = []
    ∧ (bulkPreviewExcel trivExcelMaps []
        [[("selling_price", JsValue.num 5)]]).previewProducts.map
          (fun c => c.name)
      = [JsValue.str ""] :=
  ⟨rfl, rfl⟩

/-- C2 (amended): the CSV preview and the bulk save reject a row whose
name is absent or blank with their missing-required-field reason (in save
only after the empty-row and duplicate checks); the Excel preview path
has no required-field check, and a non-empty nameless row that hits no
catalog duplicate becomes an accepted candidate whose name is the empty
string. -/
theorem C2_missing_name_rejection_amended :
    (∀ (maps : CsvDimMaps) (eN eS : List String) (i : Nat) (row : Row),
        isEmptyRow row = false → truthy (getField row "name") = false →
        csvClassifyRow maps eN eS i row
          = .error ⟨i + 2, "Missing required fields (name, parent_category)", row⟩)
    ∧ (∀ (catalog : List CatalogEntry) (user : Nat) (prod : Row),
        isEmptyRow prod = false → saveDup catalog prod = false →
        truthy (getField prod "name") = false →
        saveClassify catalog user prod = .error "Missing required fields")
    ∧ (∀ (maps : ExcelDimMaps) (eN eS : List String) (i : Nat) (row : Row),
        isEmptyRow row = false → truthy (getField row "name") = false →
        (truthy (getField row "slug") && memStr (getField row "slug") eS) = false →
        excelClassifyRow maps eN eS i row = .ok (buildExcelCandidate maps row)
          ∧ (buildExcelCandidate maps row).name = JsValue.str "") := by
  refine ⟨?_, ?_, ?_⟩
  · intro maps eN eS i row hne hname
    unfold csvClassifyRow
    rw [if_neg (by simp [hne]), if_pos (by simp [hname])]
  · intro catalog user prod hne hdup hname
    unfold saveClassify
    rw [if_neg (by simp [hne]), if_neg (by simp [hdup]), if_pos (by simp [hname])]
  · intro maps eN eS i row hne hname hslug
    constructor
    · unfold excelClassifyRow
      rw [if_neg (by simp [hne]), if_neg (by simp [hname, hslug])]
    · show jsOr (getField row "name") (JsValue.str "") = JsValue.str ""
      unfold jsOr
      rw [if_neg (by simp [hname])]

/-- Witness for amended C2: a nameless CSV row with a price is rejected
for the missing required fields. -/
theorem C2_missing_name_rejection_amended_witness :
    csvClassifyRow trivCsvMaps [] [] 0 [("price", JsValue.num 5)]
      = .error ⟨2, "Missing required fields (name, parent_category)",
          [("price", JsValue.num 5)]⟩ :=
  C2_missing_name_rejection_amended.1 trivCsvMaps [] [] 0
    [("price", JsValue.num 5)] rfl rfl

/-- Counterexample to C3: an Excel row whose only content is an
unrecognized column is not rejected as an empty row — the synthesized
specifications array makes the mapped row truthy and the row is accepted.
The claim demands an "Empty row" rejection regardless of unrecognized
columns. -/
theorem C3_spec_only_row_not_empty :
    (bulkPreviewExcel trivExcelMaps [] [[("Material", JsValue.str "Steel")]]).invalidRows
      = []
    ∧ (bulkPreviewExcel trivExcelMaps [] [[("Material", JsValue.str "Steel")]]).valid
      = 1 :=
  ⟨rfl, rfl⟩

/-- C3 (amended): the Excel preview rejects a row as "Empty row" iff all
recognized (alias-mapped) values are falsy AND no unrecognized column has
a non-blank value; when every recognized value is falsy but some
unrecognized column is non-blank, the specifications entry makes the row
truthy and the row is accepted (it has no name or slug to collide). -/
theorem C3_empty_row_amended :
    (∀ r : Row, (remapAux r).2 ≠ [] → isEmptyRow (remapRow r) = false)
    ∧ (∀ (maps : ExcelDimMaps) (eN eS : List String) (i : Nat) (r : Row),
        (remapAux r).1.all (fun kv => !truthy kv.2) = true →
        (remapAux r).2 = [] →
        excelClassifyRow maps eN eS i (remapRow r)
          = .error ⟨i + 2, "Empty row", remapRow r⟩)
    ∧ (∀ (maps : ExcelDimMaps) (eN eS : List String) (i : Nat) (r : Row),
        (remapAux r).1.all (fun kv => !truthy kv.2) = true →
        (remapAux r).2 ≠ [] →
        excelClassifyRow maps eN eS i (remapRow r)
          = .ok (buildExcelCandidate maps (remapRow r))) := by
  have hrw : ∀ r : Row, (remapAux r).2 ≠ [] →
      remapRow r = setKey (remapAux r).1 "specifications"
        (.specList (remapAux r).2) := by
    intro r h
    unfold remapRow
    cases hq : remapAux r with
    | mk m sp =>
      rw [hq] at h
      show (if sp.isEmpty = true then m
            else setKey m "specifications" (JsValue.specList sp))
          = setKey (m, sp).1 "specifications" (JsValue.specList (m, sp).2)
      rw [if_neg (by simpa using h)]
  have hempty : ∀ r : Row, (remapAux r).2 ≠ [] → isEmptyRow (remapRow r) = false := by
    intro r h
    rw [hrw r h]
    exact isEmptyRow_setKey_truthy rfl
  refine ⟨hempty, ?_, ?_⟩
  · intro maps eN eS i r hall hspec
    have hrow : remapRow r = (remapAux r).1 := by
      unfold remapRow
      cases hq : remapAux r with
      | mk m sp =>
        rw [hq] at hspec
        show (if sp.isEmpty = true then m
              else setKey m "specifications" (JsValue.specList sp)) = (m, sp).1
        rw [if_pos (by simp; simpa using hspec)]
    unfold excelClassifyRow
    rw [if_pos (by rw [hrow]; exact hall)]
  · intro maps eN eS i r hall hspec
    unfold excelClassifyRow
    rw [if_neg (by simp [hempty r hspec])]
    have hname : truthy (getField (remapRow r) "name") = false := by
      rw [hrw r hspec, getField_setKey_ne (by decide)]
      exact getField_of_all_falsy hall
    have hslug : truthy (getField (remapRow r) "slug") = false := by
      rw [hrw r hspec, getField_setKey_ne (by decide)]
      exact getField_of_all_falsy hall
    rw [if_neg (by simp [hname, hslug])]

/-- Witness for amended C3: a row with one unrecognized non-blank column
is accepted, not rejected as empty. -/
theorem C3_empty_row_amended_witness :
    excelClassifyRow trivExcelMaps [] [] 0
      (remapRow [("Material", JsValue.str "Steel")])
      = .ok (buildExcelCandidate trivExcelMaps
          (remapRow [("Material", JsValue.str "Steel")])) :=
  C3_empty_row_amended.2.2 trivExcelMaps [] [] 0
    [("Material", JsValue.str "Steel")] rfl (by decide)

/-- Counterexample to C4: in the bulk save a row that is both missing a
required field (no parentCategory) and a duplicate of an existing product
is rejected as a duplicate, not for the missing required field — the save
path checks duplicates before required fields. -/
theorem C4_save_duplicate_before_required :
    (bulkSave (fun _ _ => none) 0 [("Widget", "widget")]
        [[("name", JsValue.str "Widget")]]).results
      = [SaveOutcome.failed 0 "Duplicate product name or slug"
          [("name", JsValue.str "Widget")]]
    ∧ (bulkSave (fun _ _ => none) 0 [("Widget", "widget")]
        [[("name", JsValue.str "Widget")]]).results
      ≠ [SaveOutcome.failed 0 "Missing required fields"
          [("name", JsValue.str "Widget")]] :=
  ⟨rfl, by decide⟩

/-- C4 (amended): the CSV preview applies the checks in the order
empty row, required fields, duplicate; the bulk save applies them in the
order empty row, duplicate, required fields, so there a row that is both
missing a required field and a duplicate is rejected as a duplicate; the
Excel preview applies only empty row then duplicate (its only two
rejection reasons) and has no required-field check.  Within each path the
first failing check determines the reason. -/
theorem C4_check_order_amended :
    (∀ (maps : CsvDimMaps) (eN eS : List String) (i : Nat) (row : Row),
        isEmptyRow row = true →
        csvClassifyRow maps eN eS i row = .error ⟨i + 2, "Empty row", row⟩)
    ∧ (∀ (maps : CsvDimMaps) (eN eS : List String) (i : Nat) (row : Row),
        isEmptyRow row = false →
        (!truthy (getField row "name")
          || !truthy (getField row "parent_category")) = true →
        csvClassifyRow maps eN eS i row
          = .error ⟨i + 2, "Missing required fields (name, parent_category)", row⟩)
    ∧ (∀ (catalog : List CatalogEntry) (user : Nat) (prod : Row),
        isEmptyRow prod = true →
        saveClassify catalog user prod = .error "Empty row")
    ∧ (∀ (catalog : List CatalogEntry) (user : Nat) (prod : Row),
        isEmptyRow prod = false → saveDup catalog prod = true →
        saveClassify catalog user prod = .error "Duplicate product name or slug")
    ∧ (∀ (maps : ExcelDimMaps) (eN eS : List String) (i : Nat) (row : Row)
        (e : InvalidRow), excelClassifyRow maps eN eS i row = .error e →
        e.reason = "Empty row" ∨ e.reason = "Duplicate product name or slug") := by
  refine ⟨?_, ?_, ?_, ?_, ?_⟩
  · intro maps eN eS i row he
    unfold csvClassifyRow
    rw [if_pos (by simp [he])]
  · intro maps eN eS i row hne hreq
    unfold csvClassifyRow
    rw [if_neg (by simp [hne]), if_pos (by simp [hreq])]
  · intro catalog user prod he
    unfold saveClassify
    rw [if_pos (by simp [he])]
  · intro catalog user prod hne hdup
    unfold saveClassify
    rw [if_neg (by simp [hne]), if_pos (by simp [hdup])]
  · intro maps eN eS i row e h
    unfold excelClassifyRow at h
    split at h
    · cases h
      exact Or.inl rfl
    · split at h
      · cases h
        exact Or.inr rfl
      · exact absurd h (by simp)

/-- Witness for amended C4: a non-empty save row whose name collides is
rejected as duplicate even though it also misses parentCategory. -/
theorem C4_check_order_amended_witness :
    saveClassify [("Widget", "widget")] 0 [("name", JsValue.str "Widget")]
      = .error "Duplicate product name or slug" :=
  C4_check_order_amended.2.2.2.1 [("Widget", "widget")] 0
    [("name", JsValue.str "Widget")] rfl rfl

/-- Counterexample to C5: in both preview modes two rows of one batch
with the same fresh name are BOTH accepted — the duplicate check consults
only the persisted catalog, never the earlier rows of the batch.  The
claim demands that the second row be rejected as a duplicate in preview
mode too.  The CSV run is also exhibited through the fallible pipeline,
so it is a completed run with a report. -/
theorem C5_preview_inbatch_duplicates_accepted :
    (bulkPreviewExcel trivExcelMaps []
        [[("name", JsValue.str "Widget")], [("name", JsValue.str "Widget")]]).valid
      = 2
    ∧ (bulkPreviewExcel trivExcelMaps []
        [[("name", JsValue.str "Widget")], [("name", JsValue.str "Widget")]]).invalid
      = 0
    ∧ (bulkPreviewCsv trivCsvMaps []
        [[("name", JsValue.str "Widget"), ("parent_category", JsValue.str "Cats")],
         [("name", JsValue.str "Widget"), ("parent_category", JsValue.str "Cats")]]).valid
      = 2
    ∧ (bulkPreviewCsv trivCsvMaps []
        [[("name", JsValue.str "Widget"), ("parent_category", JsValue.str "Cats")],
         [("name", JsValue.str "Widget"), ("parent_category", JsValue.str "Cats")]]).invalid
      = 0
    ∧ bulkPreviewCsvChecked trivCsvMaps []
        [[("name", JsValue.str "Widget"), ("parent_category", JsValue.str "Cats")],
         [("name", JsValue.str "Widget"), ("parent_category", JsValue.str "Cats")]]
      = .ok (bulkPreviewCsv trivCsvMaps []
          [[("name", JsValue.str "Widget"), ("parent_category", JsValue.str "Cats")],
           [("name", JsValue.str "Widget"), ("parent_category", JsValue.str "Cats")]]) :=
  ⟨rfl, rfl, rfl, rfl, rfl⟩

/-- C5 (amended): in save mode the first of two same-named rows is
persisted and the second is rejected as a duplicate, because each
successful save enters the live catalog consulted by the next row's
duplicate query; in both preview modes the duplicate check is made only
against the persisted catalog, so a row whose name and slug hit no
catalog entry is accepted regardless of the other rows of the batch —
in the Excel path for any non-empty such row, in the CSV path for any
non-empty such row that also passes the required-field check (stated for
string names, where the candidate build cannot throw). -/
theorem C5_duplicate_amended :
    (∀ (s : String) (k user : Nat) (catalog : List CatalogEntry),
        s ≠ "" →
        saveDup catalog [("name", JsValue.str s), ("parentCategory", JsValue.oid k)]
          = false →
        (bulkSave (fun _ _ => none) user catalog
            [[("name", JsValue.str s), ("parentCategory", JsValue.oid k)],
             [("name", JsValue.str s), ("parentCategory", JsValue.oid k)]]).results
          = [SaveOutcome.success 0
              (buildSaveDoc user
                [("name", JsValue.str s), ("parentCategory", JsValue.oid k)]),
             SaveOutcome.failed 1 "Duplicate product name or slug"
              [("name", JsValue.str s), ("parentCategory", JsValue.oid k)]])
    ∧ (∀ (maps : ExcelDimMaps) (eN eS : List String) (i : Nat) (row : Row),
        isEmptyRow row = false →
        (truthy (getField row "name") && memStr (getField row "name") eN) = false →
        (truthy (getField row "slug") && memStr (getField row "slug") eS) = false →
        excelClassifyRow maps eN eS i row = .ok (buildExcelCandidate maps row))
    ∧ (∀ (maps : CsvDimMaps) (eN eS : List String) (i : Nat) (row : Row)
        (s : String),
        getField row "name" = JsValue.str s → s ≠ "" →
        truthy (getField row "parent_category") = true →
        isEmptyRow row = false →
        memStr (getField row "name") eN = false →
        (truthy (getField row "slug") && memStr (getField row "slug") eS) = false →
        csvClassifyRow maps eN eS i row = .ok (buildCsvCandidate maps row)
        ∧ csvClassifyRowChecked maps eN eS i row
            = .ok (.ok (buildCsvCandidate maps row))) := by
  refine ⟨?_, ?_, ?_⟩
  · intro s k user catalog hs hdup
    have hrow : isEmptyRow
        [("name", JsValue.str s), ("parentCategory", JsValue.oid k)] = false := by
      simp [isEmptyRow, truthy]
    have hc1 : saveClassify catalog user
        [("name", JsValue.str s), ("parentCategory", JsValue.oid k)]
        = .ok (buildSaveDoc user
            [("name", JsValue.str s), ("parentCategory", JsValue.oid k)]) := by
      unfold saveClassify
      rw [if_neg (by simp [hrow]), if_neg (by simp [hdup]),
        if_neg (by simp [getField, truthy, hs])]
    have hname : (buildSaveDoc user
        [("name", JsValue.str s), ("parentCategory", JsValue.oid k)]).name
        = JsValue.str s := by
      show jsOr (getField [("name", JsValue.str s), ("parentCategory", JsValue.oid k)]
        "name") (JsValue.str "") = JsValue.str s
      unfold jsOr
      rw [if_pos (by simp [getField, truthy, hs])]
      rfl
    have hdup2 : saveDup
        ((jsToString (buildSaveDoc user
            [("name", JsValue.str s), ("parentCategory", JsValue.oid k)]).name,
          jsToString (buildSaveDoc user
            [("name", JsValue.str s), ("parentCategory", JsValue.oid k)]).slug)
          :: catalog)
        [("name", JsValue.str s), ("parentCategory", JsValue.oid k)] = true := by
      unfold saveDup
      rw [List.any_cons]
      have : mongoStrMatch
          (getField [("name", JsValue.str s), ("parentCategory", JsValue.oid k)]
            "name")
          (jsToString (buildSaveDoc user
            [("name", JsValue.str s), ("parentCategory", JsValue.oid k)]).name)
          = true := by
        rw [hname]
        show mongoStrMatch (getField
          [("name", JsValue.str s), ("parentCategory", JsValue.oid k)] "name")
          (jsToString (JsValue.str s)) = true
        simp [getField, mongoStrMatch, jsToString]
      simp [this]
    have hc2 : saveClassify
        ((jsToString (buildSaveDoc user
            [("name", JsValue.str s), ("parentCategory", JsValue.oid k)]).name,
          jsToString (buildSaveDoc user
            [("name", JsValue.str s), ("parentCategory", JsValue.oid k)]).slug)
          :: catalog) user
        [("name", JsValue.str s), ("parentCategory", JsValue.oid k)]
        = .error "Duplicate product name or slug" := by
      unfold saveClassify
      rw [if_neg (by simp [hrow]), if_pos (by simp [hdup2])]
    simp only [bulkSave]
    rw [bulkSaveLoop_cons_success hc1 rfl, bulkSaveLoop_cons_error hc2]
    rfl
  · intro maps eN eS i row hne hnm hsl
    unfold excelClassifyRow
    rw [if_neg (by simp [hne]), if_neg (by simp [hnm, hsl])]
  · intro maps eN eS i row s hname hs hpc hne hnm hsl
    have htn : truthy (getField row "name") = true := by
      rw [hname]
      simp [truthy, hs]
    have hreq : (!truthy (getField row "name")
        || !truthy (getField row "parent_category")) = false := by
      rw [htn, hpc]
      rfl
    have hdup : ((truthy (getField row "name") && memStr (getField row "name") eN)
        || (truthy (getField row "slug") && memStr (getField row "slug") eS))
        = false := by
      rw [hnm, hsl]
      simp
    have hbuild : buildCsvCandidateChecked maps row
        = .ok (buildCsvCandidate maps row) := by
      unfold buildCsvCandidateChecked csvSlug
      by_cases hslug : truthy (getField row "slug") = true
      · rw [if_pos hslug]
      · rw [if_neg hslug]
        have hn : jsOr (getField row "name") (JsValue.str "") = JsValue.str s := by
          unfold jsOr
          rw [if_pos htn]
          exact hname
        rw [hn]
        rfl
    constructor
    · unfold csvClassifyRow
      rw [if_neg (by simp [hne]), if_neg (by simp [hreq]), if_neg (by simp [hdup])]
    · unfold csvClassifyRowChecked
      rw [if_neg (by simp [hne]), if_neg (by simp [hreq]), if_neg (by simp [hdup]),
        hbuild]

/-- Witness for amended C5: two fresh "Widget" rows in save mode give one
success and one duplicate rejection. -/
theorem C5_duplicate_amended_witness :
    (bulkSave (fun _ _ => none) 0 []
        [[("name", JsValue.str "Widget"), ("parentCategory", JsValue.oid 3)],
         [("name", JsValue.str "Widget"), ("parentCategory", JsValue.oid 3)]]).results
      = [SaveOutcome.success 0
          (buildSaveDoc 0
            [("name", JsValue.str "Widget"), ("parentCategory", JsValue.oid 3)]),
         SaveOutcome.failed 1 "Duplicate product name or slug"
          [("name", JsValue.str "Widget"), ("parentCategory", JsValue.oid 3)]] :=
  C5_duplicate_amended.1 "Widget" 3 0 [] (by decide) rfl

/-- Counterexample to C8: in the CSV preview path an accepted row that
gives no value for the boolean-like fields produces a candidate with
showStockOut, canPurchase and refundable all false — the claim demands
that they default to true in every import path. -/
theorem C8_csv_bool_defaults_false :
    (bulkPreviewCsv trivCsvMaps []
        [[("name", JsValue.str "A"),
          ("parent_category", JsValue.str "C")]]).previewProducts.map
      (fun c => (c.showStockOut, c.canPurchase, c.refundable, c.isActive, c.featured))
      = [(false, false, false, true, false)] :=
  rfl

/-- C8 (amended): in the Excel preview and the bulk save, an accepted row
with no explicit value for the boolean-like fields yields a candidate
with showStockOut, canPurchase, refundable and isActive true and featured
false; in the CSV preview path showStockOut, canPurchase and refundable
are true only for the literal `true` or `"true"` and therefore default to
false, while isActive is hard-coded true and featured hard-coded false. -/
theorem C8_bool_defaults_amended :
    (∀ (maps : ExcelDimMaps) (eN eS : List String) (i : Nat) (row : Row)
        (c : ExcelCandidate), excelClassifyRow maps eN eS i row = .ok c →
        getField row "showStockOut" = JsValue.undefined →
        getField row "canPurchase" = JsValue.undefined →
        getField row "refundable" = JsValue.undefined →
        getField row "isActive" = JsValue.undefined →
        getField row "featured" = JsValue.undefined →
        c.showStockOut = true ∧ c.canPurchase = true ∧ c.refundable = true
          ∧ c.isActive = true ∧ c.featured = false)
    ∧ (∀ (catalog : List CatalogEntry) (user : Nat) (prod : Row)
        (d : ProductDoc), saveClassify catalog user prod = .ok d →
        getField prod "showStockOut" = JsValue.undefined →
        getField prod "canPurchase" = JsValue.undefined →
        getField prod "refundable" = JsValue.undefined →
        getField prod "isActive" = JsValue.undefined →
        getField prod "featured" = JsValue.undefined →
        d.showStockOut = true ∧ d.canPurchase = true ∧ d.refundable = true
          ∧ d.isActive = true ∧ d.featured = false)
    ∧ (∀ (maps : CsvDimMaps) (eN eS : List String) (i : Nat) (row : Row)
        (c : CsvCandidate), csvClassifyRow maps eN eS i row = .ok c →
        getField row "showStockOut" = JsValue.undefined →
        getField row "canPurchase" = JsValue.undefined →
        getField row "refundable" = JsValue.undefined →
        c.showStockOut = false ∧ c.canPurchase = false ∧ c.refundable = false
          ∧ c.isActive = true ∧ c.featured = false) := by
  refine ⟨?_, ?_, ?_⟩
  · intro maps eN eS i row c hok h1 h2 h3 h4 h5
    rw [excelClassifyRow_ok hok]
    refine ⟨?_, ?_, ?_, ?_, ?_⟩
    · show boolDefault (getField row "showStockOut") true = true
      rw [h1]
      rfl
    · show boolDefault (getField row "canPurchase") true = true
      rw [h2]
      rfl
    · show boolDefault (getField row "refundable") true = true
      rw [h3]
      rfl
    · show boolDefault (getField row "isActive") true = true
      rw [h4]
      rfl
    · show boolDefault (getField row "featured") false = false
      rw [h5]
      rfl
  · intro catalog user prod d hok h1 h2 h3 h4 h5
    rw [saveClassify_ok hok]
    refine ⟨?_, ?_, ?_, ?_, ?_⟩
    · show boolDefault (getField prod "showStockOut") true = true
      rw [h1]
      rfl
    · show boolDefault (getField prod "canPurchase") true = true
      rw [h2]
      rfl
    · show boolDefault (getField prod "refundable") true = true
      rw [h3]
      rfl
    · show boolDefault (getField prod "isActive") true = true
      rw [h4]
      rfl
    · show boolDefault (getField prod "featured") false = false
      rw [h5]
      rfl
  · intro maps eN eS i row c hok h1 h2 h3
    rw [csvClassifyRow_ok hok]
    refine ⟨?_, ?_, ?_, rfl, rfl⟩
    · show csvBool (getField row "showStockOut") = false
      rw [h1]
      rfl
    · show csvBool (getField row "canPurchase") = false
      rw [h2]
      rfl
    · show csvBool (getField row "refundable") = false
      rw [h3]
      rfl

/-- Witness for amended C8: a concrete accepted Excel row without boolean
fields defaults them to true (featured false). -/
theorem C8_bool_defaults_amended_witness :
    (buildExcelCandidate trivExcelMaps [("name", JsValue.str "A")]).showStockOut = true
    ∧ (buildExcelCandidate trivExcelMaps [("name", JsValue.str "A")]).canPurchase = true
    ∧ (buildExcelCandidate trivExcelMaps [("name", JsValue.str "A")]).refundable = true
    ∧ (buildExcelCandidate trivExcelMaps [("name", JsValue.str "A")]).isActive = true
    ∧ (buildExcelCandidate trivExcelMaps [("name", JsValue.str "A")]).featured = false :=
  C8_bool_defaults_amended.1 trivExcelMaps [] [] 0 [("name", JsValue.str "A")] _
    rfl rfl rfl rfl rfl rfl

end Graba2z









